import Mathlib

/- Verification of the News_App headline-fetch-and-cache pipeline (src/app.py).
   Python dicts and records are embedded as Lean structures; Python None is
   modeled with Option; outcomes of outbound network calls and of the
   content-extraction routine are explicit oracle arguments; the filesystem
   is modeled as the list of existing paths. -/

/-- A Python datetime value: calendar fields plus an optional fixed utc
offset in minutes (none models a naive datetime). -/
structure PyDateTime where
  year : Nat
  month : Nat
  day : Nat
  hour : Nat
  minute : Nat
  second : Nat
  microsecond : Nat
  tzOffsetMinutes : Option Int
deriving Repr, DecidableEq

/-- The article record built by fetch_headlines (src/app.py lines 109-121 and
126-136). full_text is Option String: none models Python None, which is
distinct from the empty string. -/
structure ArticleRec where
  id : Nat
  title : String
  description : String
  content : String
  source_name : String
  source_url : String
  published_at : Option PyDateTime
  image_url : String
  full_text : Option String
deriving Repr, DecidableEq

/-- One entry of the provider's articles array. Every field may be missing or
null (none) or a string; the nested source.name lookup of line 114 is
flattened into the sourceName field. -/
structure ProviderEntry where
  title : Option String
  description : Option String
  content : Option String
  sourceName : Option String
  url : Option String
  urlToImage : Option String
  publishedAt : Option String
deriving Repr, DecidableEq

/-- Python truthiness of an optional string (an os.getenv result or a dict
lookup): falsy exactly when missing or empty. -/
def truthyOpt : Option String → Bool
  | none => false
  | some s => !(s == "")

/-- Python `x or default` where x is an optional string field: the default is
taken when the field is missing, null or empty. -/
def pyOr (v : Option String) (d : String) : String :=
  match v with
  | none => d
  | some s => if s = "" then d else s

/-- Outcome of one requests.get call for an image: err models an exception
raised by the call, ok carries the http status code of a response. -/
inductive NetResult where
  | err
  | ok (status : Nat)
deriving Repr, DecidableEq

/-- os.path.join("static", "images", "news") on a posix system (line 45). -/
def LOCAL_IMG_FOLDER : String := "static/images/news"

/-- The placeholder image path (line 49). -/
def PLACEHOLDER_IMAGE : String := "/static/images/placeholder.jpg"

/-- Python str.replace with the single-character pattern backslash and the
single-character replacement slash (line 77 and 84), char by char. -/
def replaceBackslash (s : String) : String :=
  String.mk (s.data.map (fun c => if c = '\\' then '/' else c))

/-- Python str.split with a one-character separator: splits at every
occurrence, keeps empty pieces, and always yields a nonempty list. -/
def splitOnChar (sep : Char) : List Char → List (List Char)
  | [] => [[]]
  | c :: cs =>
    match splitOnChar sep cs with
    | [] => [[c]]
    | g :: gs => if c = sep then [] :: g :: gs else (c :: g) :: gs

/-- Python str.lower restricted to ascii letters; the result is only ever
compared against the ascii extension whitelist. -/
def lowerChar (c : Char) : Char :=
  if 65 ≤ c.toNat ∧ c.toNat ≤ 90 then Char.ofNat (c.toNat + 32) else c

/-- Line 71: ext = url.split(".")[-1].split("?")[0]. -/
def rawExt (url : String) : String :=
  String.mk ((splitOnChar '?' ((splitOnChar '.' url.data).getLastD [])).headD [])

/-- Lines 71-73: the lowercased extension must be whitelisted, else the
extension is forced to jpg; a whitelisted extension keeps its original
casing. -/
def imgExt (url : String) : String :=
  let e := rawExt url
  let le := e.data.map lowerChar
  if le = "jpg".data ∨ le = "jpeg".data ∨ le = "png".data ∨ le = "webp".data then e
  else "jpg"

/-- Line 74: os.path.join(LOCAL_IMG_FOLDER, f"{article_id}.{ext}") on posix. -/
def local_filename (aid : Nat) (url : String) : String :=
  LOCAL_IMG_FOLDER ++ "/" ++ toString aid ++ "." ++ imgExt url

/-- download_image (src/app.py lines 66-87). The filesystem is the list of
existing paths; net is the outcome the requests.get call would have; err
models a raised exception, in which case no file is written. Returns the
returned path, the new filesystem, and whether requests.get was invoked. -/
def download_image (fs : List String) (url : String) (aid : Nat) (net : NetResult) :
    String × List String × Bool :=
  if url = "" then (PLACEHOLDER_IMAGE, fs, false)
  else
    let lf := local_filename aid url
    if lf ∈ fs then ("/" ++ replaceBackslash lf, fs, false)
    else
      match net with
      | .err => (PLACEHOLDER_IMAGE, fs, true)
      | .ok status =>
        if status = 200 then ("/" ++ replaceBackslash lf, lf :: fs, true)
        else (PLACEHOLDER_IMAGE, fs, true)

/- ------------------------------------------------------------------ -/
/- parse_datetime (src/app.py lines 54-63) and the two library parsers
   it delegates to.  datetime.fromisoformat is modeled after its CPython
   documentation: it accepts YYYY-MM-DD, optionally followed by one
   separator character (ANY single character is accepted as separator) and
   a time HH, HH:MM, HH:MM:SS or HH:MM:SS plus a fractional part of exactly
   three or six digits, optionally followed by an offset of the shape
   sign HH:MM; field ranges are validated as the datetime constructor does
   (year 1-9999, real calendar day, hour up to 23, minute and second up to
   59, absolute offset below 24 hours).  Offsets carrying seconds and
   fractions of seconds are left out of the model.  datetime.strptime with
   the fixed pattern "%Y-%m-%dT%H:%M:%S" is modeled after CPython's
   _strptime regular expressions: a four-digit year and one- or two-digit
   month, day, hour, minute and second fields separated by the literal
   characters of the pattern, the whole string consumed, followed by the
   constructor's range validation. -/

/-- The decimal digit character for n below ten. -/
def digitChar (n : Nat) : Char := Char.ofNat (48 + n)

/-- Whether a character is a decimal digit. -/
def isDigitChar (c : Char) : Bool := decide (48 ≤ c.toNat ∧ c.toNat ≤ 57)

/-- Numeric value of a digit character. -/
def digitVal (c : Char) : Nat := c.toNat - 48

/-- Parse exactly two digit characters. -/
def parse2 : List Char → Option (Nat × List Char)
  | a :: b :: rest =>
    if isDigitChar a && isDigitChar b then some (10 * digitVal a + digitVal b, rest)
    else none
  | _ => none

/-- Parse exactly four digit characters. -/
def parse4 : List Char → Option (Nat × List Char)
  | a :: b :: c :: d :: rest =>
    if isDigitChar a && isDigitChar b && isDigitChar c && isDigitChar d then
      some (1000 * digitVal a + 100 * digitVal b + 10 * digitVal c + digitVal d, rest)
    else none
  | _ => none

/-- Parse two digits if available, else one digit (the behaviour of the
strptime regular expressions for the %m, %d, %H, %M and %S directives,
each of which is followed by a non-digit literal in the fixed pattern). -/
def parse1or2 : List Char → Option (Nat × List Char)
  | a :: b :: rest =>
    if isDigitChar a && isDigitChar b then some (10 * digitVal a + digitVal b, rest)
    else if isDigitChar a then some (digitVal a, b :: rest)
    else none
  | [a] => if isDigitChar a then some (digitVal a, []) else none
  | [] => none

/-- Consume one expected literal character. -/
def expectChar (c : Char) : List Char → Option (List Char)
  | x :: rest => if x = c then some rest else none
  | [] => none

/-- Value of a list of digit characters, most significant first. -/
def digitsToNat (ds : List Char) : Nat :=
  ds.foldl (fun acc c => 10 * acc + digitVal c) 0

/-- Gregorian leap-year rule, as validated by the datetime constructor. -/
def isLeap (y : Nat) : Bool := (y % 4 == 0 && y % 100 != 0) || y % 400 == 0

/-- Number of days of a month, as validated by the datetime constructor. -/
def daysInMonth (y mo : Nat) : Nat :=
  if mo = 2 then (if isLeap y then 29 else 28)
  else if mo = 4 ∨ mo = 6 ∨ mo = 9 ∨ mo = 11 then 30
  else 31

/-- The fractional-seconds part accepted by fromisoformat: exactly three or
six digits, yielding microseconds; returns the unconsumed remainder. -/
def parseFraction (cs : List Char) : Option (Nat × List Char) :=
  let ds := cs.takeWhile (fun c => isDigitChar c)
  let rest := cs.dropWhile (fun c => isDigitChar c)
  if ds.length = 3 then some (digitsToNat ds * 1000, rest)
  else if ds.length = 6 then some (digitsToNat ds, rest)
  else none

/-- The utc-offset suffix accepted by fromisoformat: a sign, two hour digits,
a colon and two minute digits, consuming the whole remainder; the resulting
offset in minutes must be below 24 hours in absolute value (the timezone
constructor rejects larger offsets). -/
def parseOffset (cs : List Char) : Option Int :=
  match cs with
  | sign :: r =>
    if sign = '+' ∨ sign = '-' then
      match parse2 r with
      | none => none
      | some (oh, r2) =>
        match expectChar ':' r2 with
        | none => none
        | some r3 =>
          match parse2 r3 with
          | none => none
          | some (om, r4) =>
            match r4 with
            | [] =>
              if oh * 60 + om < 1440 then
                some (if sign = '-' then -((oh : Int) * 60 + om) else ((oh : Int) * 60 + om))
              else none
            | _ => none
    else none
  | [] => none

/-- Range validation of the time fields, as the time constructor does. -/
def checkTime (h mi s us : Nat) (off : Option Int) :
    Option (Nat × Nat × Nat × Nat × Option Int) :=
  if h ≤ 23 ∧ mi ≤ 59 ∧ s ≤ 59 then some (h, mi, s, us, off) else none

/-- The time-of-day part accepted by fromisoformat: HH, HH:MM, HH:MM:SS, an
optional fractional part after the seconds, and an optional offset suffix
after any of the three forms. -/
def parseTime (cs : List Char) : Option (Nat × Nat × Nat × Nat × Option Int) :=
  match parse2 cs with
  | none => none
  | some (h, r) =>
    match r with
    | [] => checkTime h 0 0 0 none
    | _ =>
      match expectChar ':' r with
      | some r2 =>
        match parse2 r2 with
        | none => none
        | some (mi, r3) =>
          match r3 with
          | [] => checkTime h mi 0 0 none
          | _ =>
            match expectChar ':' r3 with
            | some r4 =>
              match parse2 r4 with
              | none => none
              | some (s, r5) =>
                match r5 with
                | [] => checkTime h mi s 0 none
                | _ =>
                  match expectChar '.' r5 with
                  | some r6 =>
                    match parseFraction r6 with
                    | none => none
                    | some (us, r7) =>
                      match r7 with
                      | [] => checkTime h mi s us none
                      | _ =>
                        match parseOffset r7 with
                        | some off => checkTime h mi s us (some off)
                        | none => none
                  | none =>
                    match parseOffset r5 with
                    | some off => checkTime h mi s 0 (some off)
                    | none => none
            | none =>
              match parseOffset r3 with
              | some off => checkTime h mi 0 0 (some off)
              | none => none
      | none =>
        match parseOffset r with
        | some off => checkTime h 0 0 0 (some off)
        | none => none

/-- datetime.fromisoformat as documented for CPython (see the block comment
above): a YYYY-MM-DD date, then either nothing or one arbitrary separator
character followed by a time part. -/
def fromisoformat (cs : List Char) : Option PyDateTime :=
  match parse4 cs with
  | none => none
  | some (y, r1) =>
    match expectChar '-' r1 with
    | none => none
    | some r2 =>
      match parse2 r2 with
      | none => none
      | some (mo, r3) =>
        match expectChar '-' r3 with
        | none => none
        | some r4 =>
          match parse2 r4 with
          | none => none
          | some (d, rest) =>
            if 1 ≤ y ∧ 1 ≤ mo ∧ mo ≤ 12 ∧ 1 ≤ d ∧ d ≤ daysInMonth y mo then
              match rest with
              | [] => some ⟨y, mo, d, 0, 0, 0, 0, none⟩
              | _ :: tcs =>
                match parseTime tcs with
                | none => none
                | some (h, mi, s, us, off) => some ⟨y, mo, d, h, mi, s, us, off⟩
            else none

/-- datetime.strptime with the fixed pattern "%Y-%m-%dT%H:%M:%S" (line 61),
modeled after CPython's _strptime regular expressions (see the block comment
above); the result is a naive datetime. -/
def strptimeFallback (cs : List Char) : Option PyDateTime :=
  match parse4 cs with
  | none => none
  | some (y, r1) =>
    match expectChar '-' r1 with
    | none => none
    | some r2 =>
      match parse1or2 r2 with
      | none => none
      | some (mo, r3) =>
        match expectChar '-' r3 with
        | none => none
        | some r4 =>
          match parse1or2 r4 with
          | none => none
          | some (d, r5) =>
            match expectChar 'T' r5 with
            | none => none
            | some r6 =>
              match parse1or2 r6 with
              | none => none
              | some (h, r7) =>
                match expectChar ':' r7 with
                | none => none
                | some r8 =>
                  match parse1or2 r8 with
                  | none => none
                  | some (mi, r9) =>
                    match expectChar ':' r9 with
                    | none => none
                    | some r10 =>
                      match parse1or2 r10 with
                      | none => none
                      | some (s, r11) =>
                        match r11 with
                        | [] =>
                          if 1 ≤ y ∧ 1 ≤ mo ∧ mo ≤ 12 ∧ 1 ≤ d ∧ d ≤ daysInMonth y mo ∧
                              h ≤ 23 ∧ mi ≤ 59 ∧ s ≤ 59 then
                            some ⟨y, mo, d, h, mi, s, 0, none⟩
                          else none
                        | _ => none

/-- Python val.replace("Z", "+00:00") (line 58): every occurrence of the
single character Z is expanded to the six characters of "+00:00". -/
def replaceZ : List Char → List Char
  | [] => []
  | c :: cs =>
    if c = 'Z' then '+' :: '0' :: '0' :: ':' :: '0' :: '0' :: replaceZ cs
    else c :: replaceZ cs

/-- parse_datetime (src/app.py lines 54-63) over the character list of the
input: empty input is falsy and yields None; then fromisoformat is tried on
the Z-replaced string, then strptime on the original, and any failure of
both yields None. -/
def parse_datetime_chars (cs : List Char) : Option PyDateTime :=
  if cs = [] then none
  else
    match fromisoformat (replaceZ cs) with
    | some dt => some dt
    | none => strptimeFallback cs

/-- parse_datetime (src/app.py lines 54-63); the argument is the optional
publishedAt field, Python None being falsy. -/
def parse_datetime (val : Option String) : Option PyDateTime :=
  match val with
  | none => none
  | some s => parse_datetime_chars s.data

/- ------------------------------------------------------------------ -/
/- fetch_headlines (src/app.py lines 90-137). -/

/-- Outcome of the provider request of lines 97-103: failure models any
exception from requests.get, raise_for_status or json decoding, after which
data is {} and the articles list is empty; success carries the decoded
articles array (a response without an articles key is success []). -/
inductive ApiResult where
  | failure
  | success (articles : List ProviderEntry)

/-- The synthesized placeholder record of lines 126-136. Its full_text is
the empty string, not None. -/
def placeholderArticle : ArticleRec :=
  { id := 1
    title := "No articles available right now"
    description := "Please check back later."
    content := ""
    source_name := ""
    source_url := "#"
    published_at := none
    image_url := PLACEHOLDER_IMAGE
    full_text := some "" }

/-- Line 120: mirror the image when urlToImage is truthy, else take the
placeholder directly. net is the oracle of image-request outcomes, indexed
by how many image requests were made before; returns the image path, the
new filesystem and the new request count. -/
def buildImage (a : ProviderEntry) (i : Nat) (fs : List String) (net : Nat → NetResult)
    (k : Nat) : String × List String × Nat :=
  match a.urlToImage with
  | none => (PLACEHOLDER_IMAGE, fs, k)
  | some u =>
    if u = "" then (PLACEHOLDER_IMAGE, fs, k)
    else
      let r := download_image fs u i (net k)
      (r.1, r.2.1, if r.2.2 then k + 1 else k)

/-- Lines 109-118: the normalized record for provider entry a with 1-based
index i and mirrored image path img. -/
def buildArticle (a : ProviderEntry) (i : Nat) (img : String) : ArticleRec :=
  { id := i
    title := pyOr a.title "No title"
    description := pyOr a.description ""
    content := pyOr a.content ""
    source_name := pyOr a.sourceName ""
    source_url := pyOr a.url "#"
    published_at := parse_datetime a.publishedAt
    image_url := img
    full_text := none }

/-- The loop of lines 108-123: entries are consumed in provider order with
1-based index i; c is the number of records accumulated so far (len(out));
after appending a record the loop stops as soon as page_size records exist.
Returns the produced records, the final filesystem and image-request count. -/
def fetchLoop : List ProviderEntry → Nat → Nat → Nat → List String → (Nat → NetResult) →
    Nat → List ArticleRec × List String × Nat
  | [], _, _, _, fs, _, k => ([], fs, k)
  | a :: rest, i, c, ps, fs, net, k =>
    let b := buildImage a i fs net k
    let art := buildArticle a i b.1
    if ps ≤ c + 1 then ([art], b.2.1, b.2.2)
    else
      let r := fetchLoop rest (i + 1) (c + 1) ps b.2.1 net b.2.2
      (art :: r.1, r.2.1, r.2.2)

/-- fetch_headlines (src/app.py lines 90-137): with a falsy api key the
function returns the empty list at line 94; otherwise the provider outcome
yields the articles list, the loop runs, and an empty result is replaced by
the single placeholder record. Returns the records and the filesystem. -/
def fetch_headlines (apiKey : Option String) (pageSize : Nat) (api : ApiResult)
    (fs : List String) (net : Nat → NetResult) : List ArticleRec × List String :=
  if truthyOpt apiKey = false then ([], fs)
  else
    let articles_list := match api with | .failure => [] | .success l => l
    let r := fetchLoop articles_list 1 0 pageSize fs net 0
    if r.1 = [] then ([placeholderArticle], r.2.1) else (r.1, r.2.1)

/- ------------------------------------------------------------------ -/
/- enrich_article_with_newspaper (src/app.py lines 140-160) and the
   routes (lines 179-194). -/

/-- Outcome of the article-page requests.get call of line 147: err models a
raised exception, ok carries the http status. -/
inductive EnrichNet where
  | err
  | ok (status : Nat)
deriving Repr, DecidableEq

/-- Outcome of the newspaper extraction of lines 153-157: err models an
exception from construction or parsing, ok carries the extracted body text
art.text (the getattr default makes a missing attribute the empty string). -/
inductive ExtractResult where
  | err
  | ok (text : String)
deriving Repr, DecidableEq

/-- enrich_article_with_newspaper (lines 140-160): no-op when source_url is
falsy or the sentinel "#"; silent no-op on request failure or non-200 status
or extraction failure; on success full_text is set to the first non-empty of
the extracted text, the record's content and its description (possibly the
empty string when all three are empty). Returns the updated record and
whether requests.get was invoked. -/
def enrich_article_with_newspaper (r : ArticleRec) (net : EnrichNet) (ext : ExtractResult) :
    ArticleRec × Bool :=
  if r.source_url = "" ∨ r.source_url = "#" then (r, false)
  else
    match net with
    | .err => (r, true)
    | .ok status =>
      if status ≠ 200 then (r, true)
      else
        match ext with
        | .err => (r, true)
        | .ok t =>
          let newText := if t ≠ "" then t else if r.content ≠ "" then r.content else r.description
          ({ r with full_text := some newText }, true)

/-- Python `not art.get("full_text")` of line 192: true when full_text is
None or the empty string. -/
def fullTextMissing : Option String → Bool
  | none => true
  | some s => s == ""

/-- In-place mutation of the record found by the route: the first cache
element whose id equals aid is replaced. -/
def updateFirstById : List ArticleRec → Nat → ArticleRec → List ArticleRec
  | [], _, _ => []
  | x :: xs, aid, r => if x.id == aid then r :: xs else x :: updateFirstById xs aid r

/-- The article route (src/app.py lines 187-194): the first cached record
with the requested id is looked up; none models the 404 abort; when the
record's full_text is falsy it is enriched in place before rendering.
Returns (none for 404, or the new cache and the rendered record) and
whether an outbound enrichment request was made. -/
def articleRoute (cache : List ArticleRec) (aid : Nat) (net : EnrichNet)
    (ext : ExtractResult) : Option (List ArticleRec × ArticleRec) × Bool :=
  match cache.find? (fun x => x.id == aid) with
  | none => (none, false)
  | some art =>
    if fullTextMissing art.full_text then
      let r := enrich_article_with_newspaper art net ext
      (some (updateFirstById cache aid r.1, r.1), r.2)
    else (some (cache, art), false)

/-- The cache state after one article-route request (the cache is unchanged
on a 404). -/
def routeCache (cache : List ArticleRec) (aid : Nat) (net : EnrichNet)
    (ext : ExtractResult) : List ArticleRec :=
  match (articleRoute cache aid net ext).1 with
  | none => cache
  | some p => p.1

/-- The cache state after a sequence of article-route requests, each given
by a requested id and the oracles for its enrichment attempt. -/
def runArticleRequests : List (Nat × EnrichNet × ExtractResult) → List ArticleRec →
    List ArticleRec
  | [], cache => cache
  | q :: qs, cache => runArticleRequests qs (routeCache cache q.1 q.2.1 q.2.2)

/- ------------------------------------------------------------------ -/
/- The index route (src/app.py lines 179-184) and the in-memory cache. -/

/-- The environment one home-page request runs against: the configured api
key and page size, the provider outcome, and the image-request oracle. -/
structure Env where
  apiKey : Option String
  pageSize : Nat
  api : ApiResult
  net : Nat → NetResult

/-- index (lines 179-184): when the cache is empty (falsy) it is assigned
the fetch result, then the cache is rendered. Returns the rendered list
(equal to the new cache), the new filesystem and whether the fetcher was
invoked. -/
def indexStep (cache : List ArticleRec) (fs : List String) (e : Env) :
    List ArticleRec × List String × Bool :=
  if cache = [] then
    let r := fetch_headlines e.apiKey e.pageSize e.api fs e.net
    (r.1, r.2, true)
  else (cache, fs, false)

/-- A sequence of home-page requests: each request runs indexStep on the
current cache and filesystem; the Nat counts fetcher invocations. -/
def runIndex : List Env → List ArticleRec → List String → List ArticleRec × List String × Nat
  | [], cache, fs => (cache, fs, 0)
  | e :: es, cache, fs =>
    let s := indexStep cache fs e
    let r := runIndex es s.1 s.2.1
    (r.1, r.2.1, r.2.2 + (if s.2.2 then 1 else 0))

/- ------------------------------------------------------------------ -/
/- Auxiliary definitions used to state the claims. -/

/-- Two digit characters of a number below one hundred. -/
def pad2 (n : Nat) : List Char := [digitChar (n / 10 % 10), digitChar (n % 10)]

/-- Four digit characters of a number below ten thousand. -/
def pad4 (n : Nat) : List Char :=
  [digitChar (n / 1000 % 10), digitChar (n / 100 % 10), digitChar (n / 10 % 10),
    digitChar (n % 10)]

/-- The characters of the ISO-8601 extended combined representation with a
trailing Z zone designator: YYYY-MM-DDTHH:MM:SSZ. -/
def isoZchars (y mo d h mi s : Nat) : List Char :=
  pad4 y ++ '-' :: (pad2 mo ++ '-' :: (pad2 d ++ 'T' :: (pad2 h ++ ':' ::
    (pad2 mi ++ ':' :: (pad2 s ++ ['Z'])))))

/-- The string of the ISO-8601 extended combined representation with a
trailing Z: YYYY-MM-DDTHH:MM:SSZ. -/
def isoZ (y mo d h mi s : Nat) : String := String.mk (isoZchars y mo d h mi s)

/-- Whether a string is an ISO-8601 extended-format combined representation
(or plain date): the fromisoformat grammar restricted to the standard T
date-time separator, with the Z zone designator admitted through the same
replacement the code performs. Used to state that a concrete string is not
ISO-8601. -/
def isIso8601 (s : String) : Bool :=
  (fromisoformat (replaceZ s.data)).isSome &&
    (decide (s.data.length ≤ 10) || decide (s.data.getD 10 ' ' = 'T'))

/-- A concrete environment with no api credential configured. -/
def envNoKey : Env := { apiKey := none, pageSize := 10, api := .success [], net := fun _ => .err }

/-- A concrete image-request oracle whose requests all fail. -/
def netAllErr : Nat → NetResult := fun _ => .err

/-- A concrete cached record with a real source url and empty summary
fields, as fetch_headlines produces for a provider entry with empty
description and content. -/
def cexArticle : ArticleRec :=
  { id := 1
    title := "Some headline"
    description := ""
    content := ""
    source_name := ""
    source_url := "http://example.com/story"
    published_at := none
    image_url := PLACEHOLDER_IMAGE
    full_text := none }

/-- cexArticle after an enrichment whose extraction succeeded with empty
text: full_text became the empty string. -/
def cexArticleEmpty : ArticleRec := { cexArticle with full_text := some "" }

/-- cexArticle after a further enrichment whose extraction succeeded with a
non-empty body. -/
def cexArticleBody : ArticleRec := { cexArticle with full_text := some "Recovered body text." }

/-- A concrete cached record whose full_text is already a non-empty string. -/
def doneArticle : ArticleRec :=
  { id := 1
    title := "Done"
    description := "d"
    content := "c"
    source_name := ""
    source_url := "http://example.com/done"
    published_at := none
    image_url := PLACEHOLDER_IMAGE
    full_text := some "already enriched" }

/-- A concrete well-formed provider entry without an image url. -/
def sampleEntry : ProviderEntry :=
  { title := some "Sample title"
    description := some "Sample description"
    content := some "Sample content"
    sourceName := some "Sample source"
    url := some "http://example.com/sample"
    urlToImage := none
    publishedAt := none }

/- ================================================================== -/
/- Shared lemmas. -/

/-- The enrichment step never changes the id of a record. -/
theorem enrich_preserves_id (r : ArticleRec) (net : EnrichNet) (ext : ExtractResult) :
    (enrich_article_with_newspaper r net ext).1.id = r.id := by
  unfold enrich_article_with_newspaper
  repeat' split
  all_goals rfl

/-- With a truthy api key, fetch_headlines never returns the empty list:
an empty loop result is replaced by the placeholder record. -/
theorem fetch_ne_nil (key : Option String) (ps : Nat) (api : ApiResult) (fs : List String)
    (net : Nat → NetResult) (hk : truthyOpt key = true) :
    (fetch_headlines key ps api fs net).1 ≠ [] := by
  cases api with
  | failure => simp [fetch_headlines, hk, fetchLoop]
  | success l =>
    simp only [fetch_headlines, hk]
    by_cases h : (fetchLoop l 1 0 ps fs net 0).1 = [] <;> simp [h]

/-- A nonempty cache is left untouched by any sequence of home-page
requests, and the fetcher is never invoked. -/
theorem runIndex_stable (es : List Env) : ∀ (cache : List ArticleRec) (fs : List String),
    cache ≠ [] → runIndex es cache fs = (cache, fs, 0) := by
  induction es with
  | nil => intro cache fs _; rfl
  | cons e es ih =>
    intro cache fs h
    simp [runIndex, indexStep, h, ih cache fs h]

/- ================================================================== -/
/- C1 -/

/-- C1 counterexample: with no api credential configured, the first
home-page request renders the empty list, not the single synthesized
placeholder article, and this is the request that invoked the fetcher. -/
theorem c1_counterexample :
    (indexStep [] [] envNoKey).1 = [] ∧
    (indexStep [] [] envNoKey).1 ≠ [placeholderArticle] ∧
    (indexStep [] [] envNoKey).2.2 = true := by
  refine ⟨rfl, ?_, rfl⟩
  decide

/-- C1 amended: when no api credential is configured, the fetcher's early
return yields the empty list before the placeholder synthesis is reached,
so a first home-page request renders the home page with zero articles and
leaves the cache empty. -/
theorem c1_amended (fs : List String) (e : Env) (h : truthyOpt e.apiKey = false) :
    indexStep [] fs e = ([], fs, true) := by
  simp [indexStep, fetch_headlines, h]

/-- C1 witness: the amended statement at the concrete credential-free
environment. -/
theorem c1_witness : indexStep [] [] envNoKey = ([], [], true) :=
  c1_amended [] envNoKey rfl

/- ================================================================== -/
/- C2 -/

/-- C2: with a credential configured, an empty provider response, and
likewise any transport, http or decoding failure, yields exactly the one
synthesized placeholder record: id 1, the fixed title and description, the
placeholder image path, an absent timestamp, and empty (not absent) full
text. -/
theorem c2_placeholder (key : Option String) (ps : Nat) (api : ApiResult) (fs : List String)
    (net : Nat → NetResult) (hk : truthyOpt key = true)
    (hapi : api = ApiResult.failure ∨ api = ApiResult.success []) :
    (fetch_headlines key ps api fs net).1 = [placeholderArticle] ∧
    placeholderArticle.id = 1 ∧
    placeholderArticle.title = "No articles available right now" ∧
    placeholderArticle.description = "Please check back later." ∧
    placeholderArticle.image_url = PLACEHOLDER_IMAGE ∧
    placeholderArticle.published_at = none ∧
    placeholderArticle.full_text = some "" := by
  refine ⟨?_, rfl, rfl, rfl, rfl, rfl, rfl⟩
  rcases hapi with h | h <;> subst h <;> simp [fetch_headlines, hk, fetchLoop]

/-- C2 witness: the placeholder result at a concrete key, page size and
empty provider response. -/
theorem c2_witness :
    (fetch_headlines (some "k") 10 (ApiResult.success []) [] netAllErr).1 =
      [placeholderArticle] ∧
    placeholderArticle.id = 1 ∧
    placeholderArticle.title = "No articles available right now" ∧
    placeholderArticle.description = "Please check back later." ∧
    placeholderArticle.image_url = PLACEHOLDER_IMAGE ∧
    placeholderArticle.published_at = none ∧
    placeholderArticle.full_text = some "" :=
  c2_placeholder (some "k") 10 (ApiResult.success []) [] netAllErr rfl (Or.inr rfl)

/- ================================================================== -/
/- C4 -/

/-- C4 counterexample: with no credential both of two consecutive
home-page requests observe an empty cache and each invokes the fetcher, so
the fetcher is invoked twice, not at most once. -/
theorem c4_counterexample : (runIndex [envNoKey, envNoKey] [] []).2.2 = 2 := by
  decide

/-- C4 amended: the fetcher is invoked on exactly the home-page requests
that observe the cache empty; with a truthy credential the first fetch
result is never empty (the placeholder guarantees this), so over any
sequence of requests starting from the empty cache the fetcher runs
exactly once; only an empty fetch result (missing credential) can make a
later request invoke it again. -/
theorem c4_amended (key : Option String) (ps : Nat) (api : ApiResult) (net : Nat → NetResult)
    (es : List Env) (fs : List String) (hk : truthyOpt key = true) :
    (runIndex ({ apiKey := key, pageSize := ps, api := api, net := net } :: es) [] fs).2.2 =
      1 := by
  have hne := fetch_ne_nil key ps api fs net hk
  simp [runIndex, indexStep, runIndex_stable es _ _ hne]

/-- C4 witness: exactly one fetcher invocation over two requests with a
configured credential. -/
theorem c4_witness :
    (runIndex [Env.mk (some "k") 10 (ApiResult.success []) netAllErr, envNoKey]
        [] []).2.2 = 1 :=
  c4_amended (some "k") 10 (ApiResult.success []) netAllErr [envNoKey] [] rfl

/- ================================================================== -/
/- C7 -/

/-- C7 counterexample: with a failing image fetch, no file is written, so
two consecutive mirror calls with the same identifier and url each perform
network access - network input/output happens twice, not at most once. -/
theorem c7_counterexample :
    (download_image [] "http://a/b.jpg" 1 NetResult.err).2.2 = true ∧
    (download_image [] "http://a/b.jpg" 1 NetResult.err).2.1 = [] ∧
    (download_image (download_image [] "http://a/b.jpg" 1 NetResult.err).2.1
        "http://a/b.jpg" 1 NetResult.err).2.2 = true := by
  decide

/-- C7 amended: when the first mirror call's fetch succeeds (http 200), the
file is written at the derived path and a second call with the same
identifier and url returns the same path from the local existence check
alone, with no network access; only after a failed first fetch (which
writes nothing) does a second call touch the network again. -/
theorem c7_amended (fs : List String) (url : String) (aid : Nat) (net2 : NetResult)
    (h1 : url ≠ "") (h2 : local_filename aid url ∉ fs) :
    download_image fs url aid (NetResult.ok 200) =
      ("/" ++ replaceBackslash (local_filename aid url),
        local_filename aid url :: fs, true) ∧
    download_image (local_filename aid url :: fs) url aid net2 =
      ("/" ++ replaceBackslash (local_filename aid url),
        local_filename aid url :: fs, false) := by
  constructor
  · simp [download_image, h1, h2]
  · simp [download_image, h1]

/-- C7 witness: the amended statement at a concrete url and identifier. -/
theorem c7_witness :
    download_image [] "http://a/b.jpg" 1 (NetResult.ok 200) =
      ("/" ++ replaceBackslash (local_filename 1 "http://a/b.jpg"),
        local_filename 1 "http://a/b.jpg" :: [], true) ∧
    download_image (local_filename 1 "http://a/b.jpg" :: []) "http://a/b.jpg" 1
        NetResult.err =
      ("/" ++ replaceBackslash (local_filename 1 "http://a/b.jpg"),
        local_filename 1 "http://a/b.jpg" :: [], false) :=
  c7_amended [] "http://a/b.jpg" 1 NetResult.err (by decide) (by decide)

/- ================================================================== -/
/- C8 -/

/-- C8: a detail request for an id that matches no cached record is a 404
(the none result) with no enrichment attempt: no outbound request is made
and the cache is not touched. -/
theorem c8_not_found (cache : List ArticleRec) (aid : Nat) (net : EnrichNet)
    (ext : ExtractResult) (h : ∀ r ∈ cache, r.id ≠ aid) :
    articleRoute cache aid net ext = (none, false) := by
  have hf : cache.find? (fun x => x.id == aid) = none := by
    rw [List.find?_eq_none]
    intro x hx
    simpa using h x hx
  simp [articleRoute, hf]

/-- C8 witness: a 404 for a concrete cache and missing id. -/
theorem c8_witness : articleRoute [doneArticle] 2 EnrichNet.err ExtractResult.err =
    (none, false) :=
  c8_not_found [doneArticle] 2 EnrichNet.err ExtractResult.err (by decide)

/- ================================================================== -/
/- C9 -/

/-- C9: enrichment of a record whose source_url is absent (falsy) or the
sentinel "#" is a no-op: it returns without any network access and leaves
the record unchanged. -/
theorem c9_noop (r : ArticleRec) (net : EnrichNet) (ext : ExtractResult)
    (h : r.source_url = "" ∨ r.source_url = "#") :
    enrich_article_with_newspaper r net ext = (r, false) := by
  simp [enrich_article_with_newspaper, h]

/-- C9 witness: the no-op on the placeholder record, whose source_url is
the sentinel. -/
theorem c9_witness :
    enrich_article_with_newspaper placeholderArticle EnrichNet.err ExtractResult.err =
      (placeholderArticle, false) :=
  c9_noop placeholderArticle EnrichNet.err ExtractResult.err (Or.inr rfl)

/- ================================================================== -/
/- C10 -/

/-- C10: the mirror's cache hit is keyed only by identifier and derived
extension, never by url: after mirroring a first url, a call with any
second url that derives the same extension returns the first call's path
with no network access, so the stored image may belong to a different url
than the one requested. -/
theorem c10_keyed_by_id_and_ext (fs : List String) (u1 u2 : String) (aid : Nat)
    (net2 : NetResult) (_h0 : u1 ≠ u2) (h1 : u1 ≠ "") (h2 : u2 ≠ "")
    (hext : imgExt u1 = imgExt u2) (hnew : local_filename aid u1 ∉ fs) :
    download_image ((download_image fs u1 aid (NetResult.ok 200)).2.1) u2 aid net2 =
      ("/" ++ replaceBackslash (local_filename aid u1),
        (download_image fs u1 aid (NetResult.ok 200)).2.1, false) := by
  have hlf : local_filename aid u2 = local_filename aid u1 := by
    simp [local_filename, hext]
  have h1st : (download_image fs u1 aid (NetResult.ok 200)).2.1 =
      local_filename aid u1 :: fs := by
    simp [download_image, h1, hnew]
  rw [h1st]
  simp [download_image, h2, hlf]

/-- C10 witness: two distinct urls with the same derived extension; the
second call serves the file mirrored from the first. -/
theorem c10_witness :
    download_image ((download_image [] "http://a/x.png" 7 (NetResult.ok 200)).2.1)
        "http://b/y.png" 7 NetResult.err =
      ("/" ++ replaceBackslash (local_filename 7 "http://a/x.png"),
        (download_image [] "http://a/x.png" 7 (NetResult.ok 200)).2.1, false) :=
  c10_keyed_by_id_and_ext [] "http://a/x.png" "http://b/y.png" 7 NetResult.err
    (by decide) (by decide) (by decide) (by decide) (by decide)

/- ================================================================== -/
/- C3 -/

/-- The loop of fetch_headlines, started with c records already produced
and provider index i: when the remaining entries suffice, it produces
exactly the missing number of records, in provider order, with sequential
ids continuing from i. -/
theorem fetchLoop_spec (entries : List ProviderEntry) :
    ∀ (i c ps : Nat) (fs : List String) (net : Nat → NetResult) (k : Nat),
      c < ps → ps ≤ c + entries.length →
      ((fetchLoop entries i c ps fs net k).1.length = ps - c ∧
        ∀ j, j < ps - c →
          ∃ art a, (fetchLoop entries i c ps fs net k).1.get? j = some art ∧
            entries.get? j = some a ∧ art.id = i + j ∧
            art.title = pyOr a.title "No title" ∧ art.source_url = pyOr a.url "#") := by
  induction entries with
  | nil =>
    intro i c ps fs net k h1 h2
    exfalso
    simp at h2
    omega
  | cons a rest ih =>
    intro i c ps fs net k h1 h2
    by_cases hps : ps ≤ c + 1
    · have hpc : ps - c = 1 := by omega
      constructor
      · simp [fetchLoop, hps, hpc]
      · intro j hj
        have hj0 : j = 0 := by omega
        subst hj0
        refine ⟨buildArticle a i (buildImage a i fs net k).1, a, ?_, rfl, ?_, rfl, rfl⟩
        · simp [fetchLoop, hps]
        · simp [buildArticle]
    · have hc1 : c + 1 < ps := by omega
      have hlen : ps ≤ (c + 1) + rest.length := by
        simp at h2
        omega
      obtain ⟨ihlen, ihget⟩ :=
        ih (i + 1) (c + 1) ps (buildImage a i fs net k).2.1 net (buildImage a i fs net k).2.2
          hc1 hlen
      constructor
      · simp [fetchLoop, hps, ihlen]
        omega
      · intro j hj
        match j with
        | 0 =>
          refine ⟨buildArticle a i (buildImage a i fs net k).1, a, ?_, rfl, ?_, rfl, rfl⟩
          · simp [fetchLoop, hps]
          · simp [buildArticle]
        | Nat.succ j' =>
          have hj' : j' < ps - (c + 1) := by omega
          obtain ⟨art, a', hget, hea, hid, htitle, hurl⟩ := ihget j' hj'
          refine ⟨art, a', ?_, ?_, ?_, htitle, hurl⟩
          · simp only [fetchLoop]
            rw [if_neg hps]
            simpa using hget
          · simpa using hea
          · omega

/-- C3: with a credential and a positive page size, a provider response
with at least page_size entries yields exactly page_size records, whose
ids are 1..page_size assigned in provider order (the j-th record comes
from the j-th provider entry); the excess entries are discarded. -/
theorem c3_bounded (key : Option String) (ps : Nat) (entries : List ProviderEntry)
    (fs : List String) (net : Nat → NetResult) (hk : truthyOpt key = true)
    (hps : 1 ≤ ps) (hN : ps ≤ entries.length) :
    (fetch_headlines key ps (ApiResult.success entries) fs net).1.length = ps ∧
    ∀ j, j < ps →
      ∃ art a,
        (fetch_headlines key ps (ApiResult.success entries) fs net).1.get? j = some art ∧
        entries.get? j = some a ∧ art.id = j + 1 ∧
        art.title = pyOr a.title "No title" ∧ art.source_url = pyOr a.url "#" := by
  obtain ⟨hlen, hget⟩ := fetchLoop_spec entries 1 0 ps fs net 0 (by omega) (by omega)
  have hne : (fetchLoop entries 1 0 ps fs net 0).1 ≠ [] := by
    intro h
    rw [h] at hlen
    simp at hlen
    omega
  have hfe : (fetch_headlines key ps (ApiResult.success entries) fs net).1 =
      (fetchLoop entries 1 0 ps fs net 0).1 := by
    simp [fetch_headlines, hk, hne]
  rw [hfe]
  constructor
  · simpa using hlen
  · intro j hj
    obtain ⟨art, a, hg, he, hid, ht, hu⟩ := hget j (by omega)
    exact ⟨art, a, hg, he, by omega, ht, hu⟩

/-- C3 witness: one entry, page size one. -/
theorem c3_witness :
    (fetch_headlines (some "k") 1 (ApiResult.success [sampleEntry]) [] netAllErr).1.length =
      1 ∧
    ∀ j, j < 1 →
      ∃ art a,
        (fetch_headlines (some "k") 1 (ApiResult.success [sampleEntry]) []
            netAllErr).1.get? j = some art ∧
        [sampleEntry].get? j = some a ∧ art.id = j + 1 ∧
        art.title = pyOr a.title "No title" ∧ art.source_url = pyOr a.url "#" :=
  c3_bounded (some "k") 1 [sampleEntry] [] netAllErr rfl (by decide) (by decide)

/- ================================================================== -/
/- C5 -/

/-- Replacing the first id-match does not change the length. -/
theorem updateFirstById_length (l : List ArticleRec) (aid : Nat) (r : ArticleRec) :
    (updateFirstById l aid r).length = l.length := by
  induction l with
  | nil => rfl
  | cons x xs ih =>
    by_cases h : (x.id == aid) = true <;> simp [updateFirstById, h, ih]

/-- Replacing the first id-match by a record of the same id leaves the list
of ids unchanged. -/
theorem updateFirstById_map_id (l : List ArticleRec) (aid : Nat) (r : ArticleRec)
    (h : r.id = aid) :
    (updateFirstById l aid r).map ArticleRec.id = l.map ArticleRec.id := by
  induction l with
  | nil => rfl
  | cons x xs ih =>
    by_cases hx : (x.id == aid) = true
    · have hxe : x.id = aid := by simpa using hx
      simp [updateFirstById, hx, h, hxe]
    · simp [updateFirstById, hx, ih]

/-- A position holding a record whose id differs from the replaced id is
untouched by updateFirstById. -/
theorem updateFirstById_get_ne (l : List ArticleRec) (aid : Nat) (r : ArticleRec) :
    ∀ (i : Nat) (x : ArticleRec), l.get? i = some x → x.id ≠ aid →
      (updateFirstById l aid r).get? i = some x := by
  induction l with
  | nil => intro i x hx; simp at hx
  | cons y ys ih =>
    intro i x hx hne
    by_cases hy : (y.id == aid) = true
    · match i with
      | 0 =>
        exfalso
        apply hne
        have hxy : y = x := by simpa using hx
        rw [← hxy]
        simpa using hy
      | Nat.succ i' =>
        simp [updateFirstById, hy]
        simpa using hx
    · match i with
      | 0 => simpa [updateFirstById, hy] using hx
      | Nat.succ i' =>
        simp only [updateFirstById, hy]
        simp only [Bool.false_eq_true, if_false, List.get?_cons_succ]
        exact ih i' x (by simpa using hx) hne

/-- One article-route request never changes a cached record whose
full_text is already truthy (a non-empty string), provided ids are
pairwise distinct. -/
theorem routeCache_preserves (cache : List ArticleRec) (aid : Nat) (net : EnrichNet)
    (ext : ExtractResult) (hn : (cache.map ArticleRec.id).Nodup) (i : Nat)
    (art0 : ArticleRec) (hg : cache.get? i = some art0)
    (hfull : fullTextMissing art0.full_text = false) :
    (routeCache cache aid net ext).get? i = some art0 := by
  cases hfind : cache.find? (fun x => x.id == aid) with
  | none => simpa [routeCache, articleRoute, hfind] using hg
  | some art =>
    by_cases hmiss : fullTextMissing art.full_text = true
    · have hart : (art.id == aid) = true := by
        have hp := List.find?_some hfind
        simpa using hp
      have hmem : art ∈ cache := List.mem_of_find?_eq_some hfind
      have hne : art0.id ≠ aid := by
        intro heq
        obtain ⟨j, hj⟩ := List.mem_iff_get?.mp hmem
        have h1 : (cache.map ArticleRec.id).get? i = some aid := by
          rw [List.get?_map, hg]
          simp [heq]
        have h2 : (cache.map ArticleRec.id).get? j = some aid := by
          rw [List.get?_map, hj]
          simpa using hart
        obtain ⟨hi', hgi⟩ := List.get?_eq_some.mp h1
        obtain ⟨hj', hgj⟩ := List.get?_eq_some.mp h2
        have hij : (⟨i, hi'⟩ : Fin (cache.map ArticleRec.id).length) = ⟨j, hj'⟩ :=
          List.nodup_iff_injective_get.mp hn (by rw [hgi, hgj])
        have hijv : i = j := congrArg Fin.val hij
        rw [hijv, hj] at hg
        have haa : art = art0 := by simpa using hg
        rw [← haa, hmiss] at hfull
        exact Bool.true_eq_false.mp hfull
      have hcache : routeCache cache aid net ext =
          updateFirstById cache aid (enrich_article_with_newspaper art net ext).1 := by
        simp [routeCache, articleRoute, hfind, hmiss]
      rw [hcache]
      exact updateFirstById_get_ne cache aid _ i art0 hg hne
    · simpa [routeCache, articleRoute, hfind, hmiss] using hg

/-- One article-route request leaves the list of cached ids unchanged. -/
theorem routeCache_map_id (cache : List ArticleRec) (aid : Nat) (net : EnrichNet)
    (ext : ExtractResult) :
    (routeCache cache aid net ext).map ArticleRec.id = cache.map ArticleRec.id := by
  cases hfind : cache.find? (fun x => x.id == aid) with
  | none => simp [routeCache, articleRoute, hfind]
  | some art =>
    by_cases hmiss : fullTextMissing art.full_text = true
    · have hart : (art.id == aid) = true := by
        have hp := List.find?_some hfind
        simpa using hp
      have hid : (enrich_article_with_newspaper art net ext).1.id = aid := by
        rw [enrich_preserves_id]
        simpa using hart
      simp only [routeCache, articleRoute, hfind, hmiss, if_true]
      exact updateFirstById_map_id cache aid _ hid
    · simp [routeCache, articleRoute, hfind, hmiss]

/-- C5 amended: across any sequence of detail-page requests, a cached
record whose full_text is truthy (a non-empty string) is never cleared,
overwritten or re-enriched - it stays exactly as it is (ids assumed
pairwise distinct, as fetch_headlines produces them). full_text therefore
transitions at most once away from a falsy state; but a record whose
full_text is the empty string (set when an extraction and both fallback
fields were empty) is falsy and may be overwritten again. -/
theorem c5_amended (reqs : List (Nat × EnrichNet × ExtractResult)) :
    ∀ (cache : List ArticleRec), (cache.map ArticleRec.id).Nodup →
      ∀ (i : Nat) (art0 : ArticleRec), cache.get? i = some art0 →
        fullTextMissing art0.full_text = false →
        (runArticleRequests reqs cache).get? i = some art0 := by
  induction reqs with
  | nil => intro cache _ i a hg _; exact hg
  | cons q qs ih =>
    intro cache hn i a hg hf
    have hstep := routeCache_preserves cache q.1 q.2.1 q.2.2 hn i a hg hf
    have hn' : ((routeCache cache q.1 q.2.1 q.2.2).map ArticleRec.id).Nodup := by
      rw [routeCache_map_id]
      exact hn
    simpa [runArticleRequests] using ih (routeCache cache q.1 q.2.1 q.2.2) hn' i a hstep hf

/-- C5 witness: a record with non-empty full_text survives a detail
request unchanged. -/
theorem c5_witness :
    (runArticleRequests [(1, EnrichNet.ok 200, ExtractResult.ok "zzz")]
        [doneArticle]).get? 0 = some doneArticle :=
  c5_amended [(1, EnrichNet.ok 200, ExtractResult.ok "zzz")] [doneArticle] (by decide)
    0 doneArticle rfl rfl

/-- C5 counterexample: a first detail request whose extraction succeeds
with empty text (and whose record has empty content and description) sets
full_text to the empty string - a populated, non-absent value - and a
second detail request then overwrites that populated value with the newly
extracted body: full_text transitions twice and an earlier populated value
is replaced. -/
theorem c5_counterexample :
    articleRoute [cexArticle] 1 (EnrichNet.ok 200) (ExtractResult.ok "") =
      (some ([cexArticleEmpty], cexArticleEmpty), true) ∧
    cexArticleEmpty.full_text = some "" ∧
    cexArticleEmpty.full_text ≠ none ∧
    articleRoute [cexArticleEmpty] 1 (EnrichNet.ok 200)
        (ExtractResult.ok "Recovered body text.") =
      (some ([cexArticleBody], cexArticleBody), true) ∧
    cexArticleBody.full_text = some "Recovered body text." ∧
    cexArticleBody.full_text ≠ cexArticleEmpty.full_text := by
  decide

/- ================================================================== -/
/- C6 -/

/-- Digit characters are digits. -/
theorem isDigitChar_digitChar (n : Nat) (h : n < 10) : isDigitChar (digitChar n) = true := by
  interval_cases n <;> decide

/-- Digit characters evaluate back to their digit. -/
theorem digitVal_digitChar (n : Nat) (h : n < 10) : digitVal (digitChar n) = n := by
  interval_cases n <;> decide

/-- Digit characters are not the letter Z. -/
theorem digitChar_ne_Z (n : Nat) (h : n < 10) : digitChar n ≠ 'Z' := by
  interval_cases n <;> decide

/-- Parsing the two-digit rendering of n below one hundred gives n back. -/
theorem parse2_pad2 (n : Nat) (rest : List Char) (h : n < 100) :
    parse2 (pad2 n ++ rest) = some (n, rest) := by
  have h1 : n / 10 % 10 < 10 := Nat.mod_lt _ (by omega)
  have h2 : n % 10 < 10 := Nat.mod_lt _ (by omega)
  simp [pad2, parse2, isDigitChar_digitChar _ h1, isDigitChar_digitChar _ h2,
    digitVal_digitChar _ h1, digitVal_digitChar _ h2]
  omega

/-- Parsing the four-digit rendering of n below ten thousand gives n back. -/
theorem parse4_pad4 (n : Nat) (rest : List Char) (h : n < 10000) :
    parse4 (pad4 n ++ rest) = some (n, rest) := by
  have h1 : n / 1000 % 10 < 10 := Nat.mod_lt _ (by omega)
  have h2 : n / 100 % 10 < 10 := Nat.mod_lt _ (by omega)
  have h3 : n / 10 % 10 < 10 := Nat.mod_lt _ (by omega)
  have h4 : n % 10 < 10 := Nat.mod_lt _ (by omega)
  simp [pad4, parse4, isDigitChar_digitChar _ h1, isDigitChar_digitChar _ h2,
    isDigitChar_digitChar _ h3, isDigitChar_digitChar _ h4,
    digitVal_digitChar _ h1, digitVal_digitChar _ h2, digitVal_digitChar _ h3,
    digitVal_digitChar _ h4]
  omega

/-- Consuming the expected head character succeeds. -/
theorem expectChar_cons (c : Char) (r : List Char) : expectChar c (c :: r) = some r := by
  simp [expectChar]

/-- Z-replacement walks over a Z-free prefix unchanged. -/
theorem replaceZ_append (l r : List Char) (h : 'Z' ∉ l) :
    replaceZ (l ++ r) = l ++ replaceZ r := by
  induction l with
  | nil => rfl
  | cons c cs ih =>
    have hc : ¬ (c = 'Z') := fun hEq => h (by simp [hEq])
    have hcs : 'Z' ∉ cs := fun hm => h (by simp [hm])
    simp [replaceZ, hc, ih hcs]

/-- Z-replacement walks over a non-Z character unchanged. -/
theorem replaceZ_cons_ne (c : Char) (cs : List Char) (h : c ≠ 'Z') :
    replaceZ (c :: cs) = c :: replaceZ cs := by
  simp [replaceZ, h]

/-- Two-digit renderings contain no Z. -/
theorem not_mem_pad2 (n : Nat) : 'Z' ∉ pad2 n := by
  have h1 : n / 10 % 10 < 10 := Nat.mod_lt _ (by omega)
  have h2 : n % 10 < 10 := Nat.mod_lt _ (by omega)
  intro hm
  simp [pad2] at hm
  rcases hm with h | h
  · exact digitChar_ne_Z _ h1 h.symm
  · exact digitChar_ne_Z _ h2 h.symm

/-- Four-digit renderings contain no Z. -/
theorem not_mem_pad4 (n : Nat) : 'Z' ∉ pad4 n := by
  have h1 : n / 1000 % 10 < 10 := Nat.mod_lt _ (by omega)
  have h2 : n / 100 % 10 < 10 := Nat.mod_lt _ (by omega)
  have h3 : n / 10 % 10 < 10 := Nat.mod_lt _ (by omega)
  have h4 : n % 10 < 10 := Nat.mod_lt _ (by omega)
  intro hm
  simp [pad4] at hm
  rcases hm with h | h | h | h
  · exact digitChar_ne_Z _ h1 h.symm
  · exact digitChar_ne_Z _ h2 h.symm
  · exact digitChar_ne_Z _ h3 h.symm
  · exact digitChar_ne_Z _ h4 h.symm

/-- The code's Z-replacement turns the trailing Z of an ISO string into the
explicit utc offset suffix and leaves everything else alone. -/
theorem replaceZ_isoZchars (y mo d h mi s : Nat) :
    replaceZ (isoZchars y mo d h mi s) =
      pad4 y ++ '-' :: (pad2 mo ++ '-' :: (pad2 d ++ 'T' :: (pad2 h ++ ':' ::
        (pad2 mi ++ ':' :: (pad2 s ++ ['+', '0', '0', ':', '0', '0']))))) := by
  simp only [isoZchars]
  rw [replaceZ_append _ _ (not_mem_pad4 y), replaceZ_cons_ne _ _ (by decide)]
  rw [replaceZ_append _ _ (not_mem_pad2 mo), replaceZ_cons_ne _ _ (by decide)]
  rw [replaceZ_append _ _ (not_mem_pad2 d), replaceZ_cons_ne _ _ (by decide)]
  rw [replaceZ_append _ _ (not_mem_pad2 h), replaceZ_cons_ne _ _ (by decide)]
  rw [replaceZ_append _ _ (not_mem_pad2 mi), replaceZ_cons_ne _ _ (by decide)]
  rw [replaceZ_append _ _ (not_mem_pad2 s)]
  rfl

/-- The explicit zero offset suffix parses as offset zero. -/
theorem parseOffset_zero : parseOffset ['+', '0', '0', ':', '0', '0'] = some 0 := by
  decide

/-- Months never exceed thirty-one days. -/
theorem daysInMonth_le (y mo : Nat) : daysInMonth y mo ≤ 31 := by
  unfold daysInMonth
  repeat' split
  all_goals omega

/-- The time part of a Z-replaced ISO string parses to its components with
offset zero. -/
theorem parseTime_iso (h mi s : Nat) (hh : h ≤ 23) (hmi : mi ≤ 59) (hs : s ≤ 59) :
    parseTime (pad2 h ++ ':' :: (pad2 mi ++ ':' ::
        (pad2 s ++ ['+', '0', '0', ':', '0', '0']))) =
      some (h, mi, s, 0, some 0) := by
  have e1 := parse2_pad2 h (':' :: (pad2 mi ++ ':' ::
    (pad2 s ++ ['+', '0', '0', ':', '0', '0']))) (by omega)
  have e2 := parse2_pad2 mi (':' :: (pad2 s ++ ['+', '0', '0', ':', '0', '0'])) (by omega)
  have e3 := parse2_pad2 s ['+', '0', '0', ':', '0', '0'] (by omega)
  simp [parseTime, e1, e2, e3, expectChar, parseOffset_zero, checkTime, hh, hmi, hs]

/-- A Z-replaced ISO string with valid field ranges parses under the
fromisoformat model to the aware datetime with utc offset zero. -/
theorem fromisoformat_isoZ (y mo d h mi s : Nat) (hy1 : 1 ≤ y) (hy2 : y ≤ 9999)
    (hmo1 : 1 ≤ mo) (hmo2 : mo ≤ 12) (hd1 : 1 ≤ d) (hd2 : d ≤ daysInMonth y mo)
    (hh : h ≤ 23) (hmi : mi ≤ 59) (hs : s ≤ 59) :
    fromisoformat (replaceZ (isoZchars y mo d h mi s)) =
      some (PyDateTime.mk y mo d h mi s 0 (some 0)) := by
  rw [replaceZ_isoZchars]
  have e1 := parse4_pad4 y ('-' :: (pad2 mo ++ '-' :: (pad2 d ++ 'T' :: (pad2 h ++ ':' ::
    (pad2 mi ++ ':' :: (pad2 s ++ ['+', '0', '0', ':', '0', '0'])))))) (by omega)
  have e2 := parse2_pad2 mo ('-' :: (pad2 d ++ 'T' :: (pad2 h ++ ':' ::
    (pad2 mi ++ ':' :: (pad2 s ++ ['+', '0', '0', ':', '0', '0']))))) (by omega)
  have hd31 := daysInMonth_le y mo
  have e3 := parse2_pad2 d ('T' :: (pad2 h ++ ':' ::
    (pad2 mi ++ ':' :: (pad2 s ++ ['+', '0', '0', ':', '0', '0'])))) (by omega)
  have et := parseTime_iso h mi s hh hmi hs
  simp [fromisoformat, e1, e2, e3, et, expectChar, hy1, hmo1, hmo2, hd1, hd2]

/-- C6 amended: every timestamp in the ISO-8601 extended combined form with
a trailing Z parses successfully to the instant with the explicit utc
offset zero; and every string accepted by neither the fromisoformat
grammar on its Z-replaced form (a grammar which admits ANY single
character as the date-time separator) nor the fixed fallback pattern
yields the absent-value marker, and parsing never raises (it is total). -/
theorem c6_amended :
    (∀ y mo d h mi s : Nat, 1 ≤ y → y ≤ 9999 → 1 ≤ mo → mo ≤ 12 → 1 ≤ d →
      d ≤ daysInMonth y mo → h ≤ 23 → mi ≤ 59 → s ≤ 59 →
      parse_datetime (some (isoZ y mo d h mi s)) =
        some (PyDateTime.mk y mo d h mi s 0 (some 0))) ∧
    (∀ s : String, fromisoformat (replaceZ s.data) = none → strptimeFallback s.data = none →
      parse_datetime (some s) = none) := by
  constructor
  · intro y mo d h mi s hy1 hy2 hmo1 hmo2 hd1 hd2 hh hmi hs
    have hne : isoZchars y mo d h mi s ≠ [] := by simp [isoZchars, pad4]
    have hf := fromisoformat_isoZ y mo d h mi s hy1 hy2 hmo1 hmo2 hd1 hd2 hh hmi hs
    show parse_datetime_chars (isoZchars y mo d h mi s) = _
    simp [parse_datetime_chars, hne, hf]
  · intro s h1 h2
    by_cases hs : s.data = []
    · simp [parse_datetime, parse_datetime_chars, hs]
    · simp [parse_datetime, parse_datetime_chars, hs, h1, h2]

/-- C6 witness: a concrete ISO instant with trailing Z parses to the
explicit-offset instant, and a concrete garbage string yields none. -/
theorem c6_witness :
    parse_datetime (some (isoZ 2024 5 6 7 8 9)) =
      some (PyDateTime.mk 2024 5 6 7 8 9 0 (some 0)) ∧
    parse_datetime (some "hello-world") = none :=
  ⟨c6_amended.1 2024 5 6 7 8 9 (by decide) (by decide) (by decide) (by decide) (by decide)
      (by decide) (by decide) (by decide) (by decide),
    c6_amended.2 "hello-world" (by decide) (by decide)⟩

/-- C6 counterexample: the string 2024-05-06_07:08:09 matches neither
ISO-8601 (whose combined representation requires the T separator the
underscore replaces) nor the fixed fallback pattern, yet parse_datetime
does not return the absent-value marker: the fromisoformat step accepts
any single character as date-time separator and yields a parsed datetime. -/
theorem c6_counterexample :
    isIso8601 "2024-05-06_07:08:09" = false ∧
    strptimeFallback ("2024-05-06_07:08:09".data) = none ∧
    parse_datetime (some "2024-05-06_07:08:09") =
      some (PyDateTime.mk 2024 5 6 7 8 9 0 none) := by
  decide
